import Mathlib

/-!
Verification of the decidalo client library specification.

The repository ships only the unit tests (`src/unittests/test_client.py`), the
pytest fixtures and the playground driver (`src/playground.py`); the
`decidalo_client` package itself (client, models, exceptions) is not part of the
sources.  The definitions below therefore model the client from the
specification (spec.md, sections 4.1, 4.2, 6, 7), guided by the observable
behaviour the unit tests pin down.  Async effects are modelled by explicit
state passing: the HTTP layer is a pure function from the outgoing request to
the mocked response, and every operation returns its result together with the
list of network calls it performed.
-/

namespace Decidalo

/-- Modelled from the spec: JSON values as exchanged on the wire
(section 6, "JSON over HTTPS").  Numbers are restricted to integers,
which covers every field the claims touch. -/
inductive Json where
  | null : Json
  | bool (b : Bool) : Json
  | num (n : Int) : Json
  | str (s : String) : Json
  | arr (elems : List Json) : Json
  | obj (fields : List (String × Json)) : Json

/-- Look a key up in a JSON object field list (first match wins). -/
def lookupField : List (String × Json) → String → Option Json
  | [], _ => none
  | (k', v) :: rest, k => if k' = k then some v else lookupField rest k

/-- Modelled from the spec: the typed error taxonomy of section 7.
`usageError` is the RuntimeError for calls outside an active scope,
`authenticationError` covers remote status 401/403,
`apiError` every other non-2xx status; both carry the exact status code and a
message built from the raw response text.  `validationError` stands for a 2xx
body that does not decode into the declared target shape. -/
inductive DecidaloError where
  | usageError (message : String)
  | authenticationError (status_code : Nat) (message : String)
  | apiError (status_code : Nat) (message : String)
  | validationError (message : String)

/-- Modelled from the spec: the client object (section 4.1).  It holds the
configured API key, the base URL (trailing slashes stripped at construction)
and the lazily created session, `none` until scope entry. -/
structure DecidaloClient where
  api_key : String
  base_url : String
  session : Option Unit

/-- Strip all trailing '/' characters, as the constructor does before
storing the base URL (spec section 6: "trailing slash always stripped"). -/
def stripTrailingSlashes (s : String) : String :=
  String.mk ((s.data.reverse.dropWhile (fun c => c == '/')).reverse)

/-- Modelled from the spec: client construction.  No session exists yet;
scope entry creates it lazily (section 4.1). -/
def mkClient (api_key base_url : String) : DecidaloClient :=
  { api_key := api_key
    base_url := stripTrailingSlashes base_url
    session := none }

/-- Modelled from the spec: scope entry (the async context manager's enter).
It creates the pooled session and yields the client itself: the first
component is the client's state after entry, the second the value bound by
the `async with ... as` clause, and the two coincide because enter returns
self. -/
def DecidaloClient.aenter (c : DecidaloClient) : DecidaloClient × DecidaloClient :=
  let c' := { c with session := some () }
  (c', c')

/-- Modelled from the spec: the distinct ways control can leave the scope
(section 4.1: "success, error, early return"). -/
inductive ExitPath where
  | success : ExitPath
  | error : ExitPath
  | earlyReturn : ExitPath

/-- Modelled from the spec: scope exit releases the connection pool
unconditionally, whatever path control leaves on (section 4.1). -/
def DecidaloClient.aexit (c : DecidaloClient) (_p : ExitPath) : DecidaloClient :=
  { c with session := none }

/-- HTTP verbs used by the operation catalog (section 4.2). -/
inductive Method where
  | GET : Method
  | POST : Method
  | HEAD : Method

/-- An outgoing HTTP request as the transport assembles it: full URL
(base URL ++ relative path), structured query parameters, headers, and an
optional JSON body. -/
structure HttpRequest where
  method : Method
  url : String
  query : List (String × String)
  headers : List (String × String)
  body : Option Json

/-- A mocked HTTP response: status code, raw body text (used for error
messages) and the body parsed as JSON (used for 2xx decoding). -/
structure HttpResponse where
  status : Nat
  text : String
  payload : Json

/-- A responder stands for the network: it maps the outgoing request to the
response the server gives. -/
def Responder := HttpRequest → HttpResponse

/-- Modelled from the spec: request assembly, steps 1-2 of section 4.1.
Build the full URL from base URL + relative path, attach query parameters,
and attach the API key header `X-Api-Key` alongside the content headers. -/
def buildRequest (c : DecidaloClient) (m : Method) (path : String)
    (query : List (String × String)) (body : Option Json) : HttpRequest :=
  { method := m
    url := c.base_url ++ path
    query := query
    headers := [("X-Api-Key", c.api_key), ("Content-Type", "application/json")]
    body := body }

/-- A status is successful when it lies in the 2xx class. -/
def is2xx (status : Nat) : Prop := 200 ≤ status ∧ status < 300

instance (status : Nat) : Decidable (is2xx status) := by
  unfold is2xx; infer_instance

/-- Message text of the usage error raised outside an active scope. -/
def usageMessage : String :=
  "DecidaloClient must be used within an async context manager"

/-- Message of the authentication error: carries the raw response text. -/
def authMessage (status : Nat) (text : String) : String :=
  "Authentication failed with status " ++ toString status ++ ": " ++ text

/-- Message of the generic API error: carries the raw response text. -/
def apiMessage (status : Nat) (text : String) : String :=
  "API request failed with status " ++ toString status ++ ": " ++ text

/-- Modelled from the spec: the single internal request operation of
section 4.1.  Outside an active scope it fails with the usage error and
performs no network call.  Inside a scope it sends exactly one request and
branches on the response status: 2xx returns the response, 401/403 raises
the authentication error, any other status the generic API error, each
carrying the exact status code and the raw body text.  The second component
lists the network calls performed. -/
def rawRequest (c : DecidaloClient) (m : Method) (path : String)
    (query : List (String × String)) (body : Option Json)
    (respond : Responder) : Except DecidaloError HttpResponse × List HttpRequest :=
  match c.session with
  | none => (.error (.usageError usageMessage), [])
  | some _ =>
    let req := buildRequest c m path query body
    let resp := respond req
    if is2xx resp.status then
      (.ok resp, [req])
    else if resp.status = 401 ∨ resp.status = 403 then
      (.error (.authenticationError resp.status (authMessage resp.status resp.text)), [req])
    else
      (.error (.apiError resp.status (apiMessage resp.status resp.text)), [req])

/-! ### Decoding helpers (spec section 4.1, step 4: decode the 2xx body into
the declared target shape; unknown fields ignored, absent nullable slots
resolve to their default). -/

/-- Extract a string value. -/
def Json.asStr : Json → Except String String
  | .str s => .ok s
  | _ => .error "expected a JSON string"

/-- Extract an integer value. -/
def Json.asInt : Json → Except String Int
  | .num n => .ok n
  | _ => .error "expected a JSON number"

/-- Extract a boolean value. -/
def Json.asBool : Json → Except String Bool
  | .bool b => .ok b
  | _ => .error "expected a JSON boolean"

/-- Required string field: missing or non-string is a validation failure. -/
def reqStr (fields : List (String × Json)) (key : String) : Except String String :=
  match lookupField fields key with
  | some v => v.asStr
  | none => .error ("missing required field " ++ key)

/-- Required integer field. -/
def reqInt (fields : List (String × Json)) (key : String) : Except String Int :=
  match lookupField fields key with
  | some v => v.asInt
  | none => .error ("missing required field " ++ key)

/-- Required boolean field. -/
def reqBool (fields : List (String × Json)) (key : String) : Except String Bool :=
  match lookupField fields key with
  | some v => v.asBool
  | none => .error ("missing required field " ++ key)

/-- Nullable string field: missing or `null` resolves to `none`. -/
def optStr (fields : List (String × Json)) (key : String) : Except String (Option String) :=
  match lookupField fields key with
  | none => .ok none
  | some .null => .ok none
  | some v => (v.asStr).map some

/-- Nullable integer field: missing or `null` resolves to `none`. -/
def optInt (fields : List (String × Json)) (key : String) : Except String (Option Int) :=
  match lookupField fields key with
  | none => .ok none
  | some .null => .ok none
  | some v => (v.asInt).map some

/-! ### Data shapes (spec section 3 and the payloads the unit tests fix). -/

/-- Modelled from the spec: the User read shape (section 3: identity,
profile attributes, resource-management inclusion flag, audit timestamps);
field names as the test payloads show them.  `employeeID` is nullable. -/
structure UserResult where
  userID : Int
  email : String
  displayName : String
  employeeID : Option String
  employeeTypeID : Int
  employeeTypeName : String
  includeInResourceManagement : Bool
  hasLogin : Bool
  creationDate : String
  lastEditDate : String

/-- The object keys the User shape declares. -/
def userKeys : List String :=
  ["userID", "email", "displayName", "employeeID", "employeeTypeID",
   "employeeTypeName", "includeInResourceManagement", "hasLogin",
   "creationDate", "lastEditDate"]

/-- Modelled from the spec: decode one user object.  Only the declared keys
are consulted; any other field the server sends is ignored. -/
def decodeUser (j : Json) : Except String UserResult :=
  match j with
  | .obj fields => do
    let uid ← reqInt fields "userID"
    let email ← reqStr fields "email"
    let dn ← reqStr fields "displayName"
    let eid ← optStr fields "employeeID"
    let etid ← reqInt fields "employeeTypeID"
    let etn ← reqStr fields "employeeTypeName"
    let irm ← reqBool fields "includeInResourceManagement"
    let hl ← reqBool fields "hasLogin"
    let cd ← reqStr fields "creationDate"
    let led ← reqStr fields "lastEditDate"
    .ok { userID := uid, email := email, displayName := dn, employeeID := eid,
          employeeTypeID := etid, employeeTypeName := etn,
          includeInResourceManagement := irm, hasLogin := hl,
          creationDate := cd, lastEditDate := led }
  | _ => .error "expected a JSON object"

/-- Decode a JSON array of users. -/
def decodeUserList (j : Json) : Except String (List UserResult) :=
  match j with
  | .arr elems => elems.mapM decodeUser
  | _ => .error "expected a JSON array"

/-- Modelled from the spec: the closed set of booking-type values
(section 3, e.g. "Confirmed"). -/
inductive BookingType where
  | Confirmed : BookingType
deriving DecidableEq

/-- Decode a booking-type string into the closed enumeration. -/
def decodeBookingType (j : Json) : Except String BookingType :=
  match j with
  | .str "Confirmed" => .ok BookingType.Confirmed
  | _ => .error "unknown booking type"

/-- Modelled from the spec: the Booking read shape (section 3: id, optional
project linkage, user id, subject, date range, capacity, booking type).
Everything beyond the id, user id and subject is nullable, as the
bookings-by-project payload in the tests shows. -/
structure BookingResult where
  bookingID : Int
  bookingCode : Option String
  projectID : Option Int
  projectCode : Option String
  userID : Int
  subject : String
  startDate : Option String
  endDate : Option String
  capacity : Option Int
  bookingType : Option BookingType

/-- The object keys the Booking shape declares. -/
def bookingKeys : List String :=
  ["bookingID", "bookingCode", "projectID", "projectCode", "userID",
   "subject", "startDate", "endDate", "capacity", "bookingType"]

/-- Modelled from the spec: decode one booking object; unknown fields are
ignored and absent nullable slots resolve to `none`. -/
def decodeBooking (j : Json) : Except String BookingResult :=
  match j with
  | .obj fields => do
    let bid ← reqInt fields "bookingID"
    let bcode ← optStr fields "bookingCode"
    let pid ← optInt fields "projectID"
    let pcode ← optStr fields "projectCode"
    let uid ← reqInt fields "userID"
    let subj ← reqStr fields "subject"
    let sd ← optStr fields "startDate"
    let ed ← optStr fields "endDate"
    let cap ← optInt fields "capacity"
    let bt ← match lookupField fields "bookingType" with
      | none => Except.ok none
      | some .null => Except.ok none
      | some v => (decodeBookingType v).map some
    .ok { bookingID := bid, bookingCode := bcode, projectID := pid,
          projectCode := pcode, userID := uid, subject := subj,
          startDate := sd, endDate := ed, capacity := cap, bookingType := bt }
  | _ => .error "expected a JSON object"

/-- Decode a JSON array of bookings. -/
def decodeBookingList (j : Json) : Except String (List BookingResult) :=
  match j with
  | .arr elems => elems.mapM decodeBooking
  | _ => .error "expected a JSON array"

/-- Modelled from the spec: one absence (section 3: id, user id, date range,
subject). -/
structure AbsenceResult where
  absenceId : Int
  userId : Int
  startDate : String
  endDate : String
  subject : String

/-- Decode one absence object. -/
def decodeAbsence (j : Json) : Except String AbsenceResult :=
  match j with
  | .obj fields => do
    let aid ← reqInt fields "absenceId"
    let uid ← reqInt fields "userId"
    let sd ← reqStr fields "startDate"
    let ed ← reqStr fields "endDate"
    let subj ← reqStr fields "subject"
    .ok { absenceId := aid, userId := uid, startDate := sd, endDate := ed,
          subject := subj }
  | _ => .error "expected a JSON object"

/-- Modelled from the spec: the absence retrieval envelope (section 3,
glossary: a response object wrapping a possibly-absent list field). -/
structure GetAbsencesResult where
  absences : Option (List AbsenceResult)

/-- Modelled from the spec: decode the absence envelope.  A missing or
`null` `absences` field resolves to `none`; an array decodes element-wise. -/
def decodeAbsencesResult (j : Json) : Except String GetAbsencesResult :=
  match j with
  | .obj fields =>
    match lookupField fields "absences" with
    | none => .ok { absences := none }
    | some .null => .ok { absences := none }
    | some (.arr elems) => (elems.mapM decodeAbsence).map (fun xs => { absences := some xs })
    | some _ => .error "expected a JSON array or null"
  | _ => .error "expected a JSON object"

/-- Modelled from the playground driver (`demo_get_absences`): the caller
normalizes the envelope with `result.absences or []`, so a missing list is
an empty list. -/
def callerAbsences (r : GetAbsencesResult) : List AbsenceResult :=
  r.absences.getD []

/-- Modelled from the spec: the closed batch-status enumeration
(section 3: Created, Processing, Completed). -/
inductive ImportStatus where
  | Created : ImportStatus
  | Processing : ImportStatus
  | Completed : ImportStatus
deriving DecidableEq

/-- Decode a status string into the closed enumeration. -/
def decodeImportStatus (j : Json) : Except String ImportStatus :=
  match j with
  | .str "Created" => .ok ImportStatus.Created
  | .str "Processing" => .ok ImportStatus.Processing
  | .str "Completed" => .ok ImportStatus.Completed
  | _ => .error "unknown import status"

/-- Modelled from the spec: a batch status, a closed status value optionally
paired with an error message (section 3). -/
structure BatchStatus where
  status : ImportStatus
  errorMessage : Option String

/-- Decode a batch-status object. -/
def decodeBatchStatus (j : Json) : Except String BatchStatus :=
  match j with
  | .obj fields => do
    let st ← match lookupField fields "status" with
      | some v => decodeImportStatus v
      | none => Except.error "missing required field status"
    let em ← optStr fields "errorMessage"
    .ok { status := st, errorMessage := em }
  | _ => .error "expected a JSON object"

/-- Modelled from the spec: the response of an async-accepting import
endpoint, `{"batchID": "<uuid>"}` (section 6).  The UUID is kept as its
string rendering. -/
structure BatchResponse where
  batchID : String

/-- Decode the batch-id envelope. -/
def decodeBatchResponse (j : Json) : Except String BatchResponse :=
  match j with
  | .obj fields => (reqStr fields "batchID").map (fun b => { batchID := b })
  | _ => .error "expected a JSON object"

/-- Modelled from the spec: the import-status poll result: the batch id
paired with its status. -/
structure UserImportStatusResult where
  batchID : String
  status : BatchStatus

/-- Decode the import-status poll response. -/
def decodeUserImportStatus (j : Json) : Except String UserImportStatusResult :=
  match j with
  | .obj fields => do
    let b ← reqStr fields "batchID"
    let st ← match lookupField fields "status" with
      | some v => decodeBatchStatus v
      | none => Except.error "missing required field status"
    .ok { batchID := b, status := st }
  | _ => .error "expected a JSON object"

/-! ### Input shapes and their serialization. -/

/-- Modelled from the spec: one user of a user-import batch (section 3); the
fields the unit tests construct. -/
structure UserInput where
  email : String
  displayName : String
  employeeID : String

/-- Modelled from the spec: the user-import batch command. -/
structure UserBatchInput where
  users : List UserInput

/-- Serialize one user input to JSON. -/
def encodeUser (u : UserInput) : Json :=
  .obj [("email", .str u.email), ("displayName", .str u.displayName),
        ("employeeID", .str u.employeeID)]

/-- Serialize the user-import batch command to JSON. -/
def encodeUserBatch (b : UserBatchInput) : Json :=
  .obj [("users", .arr (b.users.map encodeUser))]

/-! ### Typed operation catalog (spec section 4.2).  Each operation is a
thin wrapper over the single internal request operation, declaring its verb,
path, query parameters, body and target shape. -/

/-- Chain decoding of the 2xx payload onto the transport outcome: transport
errors pass through, a decode failure becomes a validation error. -/
def decodeWith (dec : Json → Except String α)
    (r : Except DecidaloError HttpResponse × List HttpRequest) :
    Except DecidaloError α × List HttpRequest :=
  match r with
  | (.error e, calls) => (.error e, calls)
  | (.ok resp, calls) =>
    match dec resp.payload with
    | .ok v => (.ok v, calls)
    | .error m => (.error (.validationError m), calls)

/-- Modelled from the spec: list users, GET `/importapi/User`, optional
`email` query filter (section 4.2). -/
def DecidaloClient.get_users (c : DecidaloClient) (email : Option String)
    (respond : Responder) : Except DecidaloError (List UserResult) × List HttpRequest :=
  let query := match email with
    | some e => [("email", e)]
    | none => []
  decodeWith decodeUserList (rawRequest c .GET "/importapi/User" query none respond)

/-- Modelled from the spec: import users asynchronously, POST
`/importapi/User`, body = the serialized batch, response = the batch id
(sections 4.2 and 6). -/
def DecidaloClient.import_users_async (c : DecidaloClient) (batch : UserBatchInput)
    (respond : Responder) : Except DecidaloError BatchResponse × List HttpRequest :=
  decodeWith decodeBatchResponse
    (rawRequest c .POST "/importapi/User" [] (some (encodeUserBatch batch)) respond)

/-- Modelled from the spec: poll the user import status, GET
`/importapi/User/ImportStatus` with query `batchId` (section 4.2). -/
def DecidaloClient.get_user_import_status (c : DecidaloClient) (batchId : String)
    (respond : Responder) : Except DecidaloError UserImportStatusResult × List HttpRequest :=
  decodeWith decodeUserImportStatus
    (rawRequest c .GET "/importapi/User/ImportStatus" [("batchId", batchId)] none respond)

/-- Modelled from the spec: retrieve absences, GET `/importapi/Absence`;
the response is the envelope whose list may be null (section 4.2). -/
def DecidaloClient.get_absences (c : DecidaloClient)
    (respond : Responder) : Except DecidaloError GetAbsencesResult × List HttpRequest :=
  decodeWith decodeAbsencesResult
    (rawRequest c .GET "/importapi/Absence" [] none respond)

/-- Modelled from the spec: bookings by project, GET
`/importapi/Booking/ByProject` with query `projectId` (section 4.2). -/
def DecidaloClient.get_bookings_by_project (c : DecidaloClient) (project_id : Int)
    (respond : Responder) : Except DecidaloError (List BookingResult) × List HttpRequest :=
  decodeWith decodeBookingList
    (rawRequest c .GET "/importapi/Booking/ByProject"
      [("projectId", toString project_id)] none respond)

/-- Modelled from the spec: the existence check, HEAD `/importapi/Project`
with query `projectCode` (sections 4.2, glossary).  It never decodes a body:
status 200 yields `true`, 404 yields `false`; outside scope it is the usage
error, and any other status follows the error taxonomy of section 4.1. -/
def DecidaloClient.project_exists (c : DecidaloClient) (project_code : String)
    (respond : Responder) : Except DecidaloError Bool × List HttpRequest :=
  match c.session with
  | none => (.error (.usageError usageMessage), [])
  | some _ =>
    let req := buildRequest c .HEAD "/importapi/Project" [("projectCode", project_code)] none
    let resp := respond req
    if resp.status = 200 then
      (.ok true, [req])
    else if resp.status = 404 then
      (.ok false, [req])
    else if resp.status = 401 ∨ resp.status = 403 then
      (.error (.authenticationError resp.status (authMessage resp.status resp.text)), [req])
    else
      (.error (.apiError resp.status (apiMessage resp.status resp.text)), [req])

/-! ### Helper lemmas. -/

/-- Appending fields whose lookup misses does not change a lookup. -/
theorem lookupField_append_of_none (a b : List (String × Json)) (k : String)
    (hb : lookupField b k = none) : lookupField (a ++ b) k = lookupField a k := by
  induction a with
  | nil => simpa [lookupField] using hb
  | cons hd tl ih =>
    obtain ⟨k', v⟩ := hd
    simp only [List.cons_append, lookupField, List.append_eq]
    rw [ih]

/-- A lookup among fields none of which carries the key misses. -/
theorem lookupField_eq_none (b : List (String × Json)) (k : String)
    (h : ∀ p ∈ b, p.1 ≠ k) : lookupField b k = none := by
  induction b with
  | nil => rfl
  | cons hd tl ih =>
    obtain ⟨k', v⟩ := hd
    simp only [lookupField]
    rw [if_neg (h (k', v) (List.mem_cons_self _ _)), ih]
    intro p hp
    exact h p (List.mem_cons_of_mem _ hp)

/-- Generic lookup in a header list (first match wins). -/
def lookupHeader : List (String × String) → String → Option String
  | [], _ => none
  | (k', v) :: rest, k => if k' = k then some v else lookupHeader rest k

/-- The response the server gives to the request an operation assembles. -/
def responseOf (c : DecidaloClient) (m : Method) (path : String)
    (query : List (String × String)) (body : Option Json)
    (respond : Responder) : HttpResponse :=
  respond (buildRequest c m path query body)

/-! ### Claim theorems. -/

/-- C9: on every exit path from the client's scope (normal completion,
error, early return), scope exit releases the connection pool
unconditionally: after the context manager exits, the client holds no open
session. -/
theorem aexit_releases_pool (c : DecidaloClient) (p : ExitPath) :
    (c.aexit p).session = none := rfl

/-- C10: entering the async context manager yields the very same client
state that scope entry produced (enter returns self, not a wrapper), and a
freshly constructed client holds no session until scope entry lazily
creates one. -/
theorem aenter_returns_self (key url : String) (c : DecidaloClient) :
    (mkClient key url).session = none
    ∧ (c.aenter).2 = (c.aenter).1
    ∧ ((c.aenter).1).session = some ()
    ∧ ((c.aenter).1).api_key = c.api_key
    ∧ ((c.aenter).1).base_url = c.base_url :=
  ⟨rfl, rfl, rfl, rfl, rfl⟩

/-- Stripping trailing slashes is unaffected by appending one slash. -/
theorem stripTrailingSlashes_append_slash (u : String) :
    stripTrailingSlashes (u ++ "/") = stripTrailingSlashes u := by
  unfold stripTrailingSlashes
  have h : (u ++ "/").data = u.data ++ ['/'] := rfl
  rw [h]
  simp [List.reverse_append]

/-- C6: constructing the client with a base URL ending in a trailing slash
produces the very same client as without it, and hence every operation —
all of which go through the single internal request operation — produces
exactly the same request URLs and the same results. -/
theorem trailing_slash_equivalent (key url : String) :
    mkClient key (url ++ "/") = mkClient key url
    ∧ ∀ (m : Method) (path : String) (query : List (String × String))
        (body : Option Json) (respond : Responder),
      rawRequest ((mkClient key (url ++ "/")).aenter.1) m path query body respond
        = rawRequest ((mkClient key url).aenter.1) m path query body respond := by
  have hmk : mkClient key (url ++ "/") = mkClient key url := by
    unfold mkClient
    rw [stripTrailingSlashes_append_slash]
  exact ⟨hmk, fun m path query body respond => by rw [hmk]⟩

/-- C3: calling any network operation outside an active scope — before
scope entry or after scope exit — fails with the usage error, a programmer
error distinct from the remote-API errors, and performs zero network
calls. -/
theorem operation_outside_scope_usage_error (c : DecidaloClient)
    (h : c.session = none) :
    (∀ (m : Method) (path : String) (query : List (String × String))
        (body : Option Json) (respond : Responder),
      rawRequest c m path query body respond
        = (.error (.usageError usageMessage), []))
    ∧ (∀ (email : Option String) (respond : Responder),
        c.get_users email respond = (.error (.usageError usageMessage), []))
    ∧ (∀ (batch : UserBatchInput) (respond : Responder),
        c.import_users_async batch respond = (.error (.usageError usageMessage), []))
    ∧ (∀ (batchId : String) (respond : Responder),
        c.get_user_import_status batchId respond = (.error (.usageError usageMessage), []))
    ∧ (∀ (respond : Responder),
        c.get_absences respond = (.error (.usageError usageMessage), []))
    ∧ (∀ (project_id : Int) (respond : Responder),
        c.get_bookings_by_project project_id respond = (.error (.usageError usageMessage), []))
    ∧ (∀ (code : String) (respond : Responder),
        c.project_exists code respond = (.error (.usageError usageMessage), []))
    ∧ (∀ (s : Nat) (msg : String),
        DecidaloError.usageError usageMessage ≠ .authenticationError s msg
        ∧ DecidaloError.usageError usageMessage ≠ .apiError s msg) := by
  have hraw : ∀ (m : Method) (path : String) (query : List (String × String))
      (body : Option Json) (respond : Responder),
      rawRequest c m path query body respond
        = (.error (.usageError usageMessage), []) := by
    intro m path query body respond
    unfold rawRequest
    rw [h]
  refine ⟨hraw, ?_, ?_, ?_, ?_, ?_, ?_, ?_⟩
  · intro email respond
    show decodeWith decodeUserList
        (rawRequest c .GET "/importapi/User"
          (match email with | some e => [("email", e)] | none => []) none respond)
      = (.error (.usageError usageMessage), [])
    rw [hraw]
    rfl
  · intro batch respond
    unfold DecidaloClient.import_users_async
    rw [hraw]
    rfl
  · intro batchId respond
    unfold DecidaloClient.get_user_import_status
    rw [hraw]
    rfl
  · intro respond
    unfold DecidaloClient.get_absences
    rw [hraw]
    rfl
  · intro project_id respond
    unfold DecidaloClient.get_bookings_by_project
    rw [hraw]
    rfl
  · intro code respond
    unfold DecidaloClient.project_exists
    rw [h]
  · intro s msg
    exact ⟨fun hc => DecidaloError.noConfusion hc, fun hc => DecidaloError.noConfusion hc⟩

/-- C3 witness: a freshly constructed client refuses `get_users` and
`project_exists` with the usage error and makes no network call. -/
theorem operation_outside_scope_usage_error_witness :
    (mkClient "test-api-key" "https://import.decidalo.dev").session = none
    ∧ (mkClient "test-api-key" "https://import.decidalo.dev").get_users none
        (fun _ => ⟨200, "", Json.arr []⟩)
        = (.error (.usageError usageMessage), [])
    ∧ (mkClient "test-api-key" "https://import.decidalo.dev").project_exists "PROJ001"
        (fun _ => ⟨200, "", Json.null⟩)
        = (.error (.usageError usageMessage), []) :=
  ⟨rfl,
   (operation_outside_scope_usage_error _ rfl).2.1 none _,
   (operation_outside_scope_usage_error _ rfl).2.2.2.2.2.2.1 "PROJ001" _⟩

/-- The internal request operation performs either no call or exactly the
assembled request. -/
theorem rawRequest_calls (c : DecidaloClient) (m : Method) (path : String)
    (query : List (String × String)) (body : Option Json) (respond : Responder) :
    (rawRequest c m path query body respond).2 = []
    ∨ (rawRequest c m path query body respond).2 = [buildRequest c m path query body] := by
  unfold rawRequest
  cases hs : c.session with
  | none => exact Or.inl rfl
  | some u =>
    right
    dsimp only
    split
    · rfl
    · split
      · rfl
      · rfl

/-- The existence check performs either no call or exactly the assembled
HEAD request. -/
theorem project_exists_calls (c : DecidaloClient) (code : String) (respond : Responder) :
    (c.project_exists code respond).2 = []
    ∨ (c.project_exists code respond).2
        = [buildRequest c .HEAD "/importapi/Project" [("projectCode", code)] none] := by
  unfold DecidaloClient.project_exists
  cases hs : c.session with
  | none => exact Or.inl rfl
  | some u =>
    right
    dsimp only
    split
    · rfl
    · split
      · rfl
      · split
        · rfl
        · rfl

/-- C2: every outgoing request, whatever the operation and HTTP verb,
carries the header `X-Api-Key` whose value is the API key the client was
configured with: it is attached at request assembly, so every call recorded
by the internal request operation and by the existence check carries it. -/
theorem api_key_header_on_every_request (c : DecidaloClient) (m : Method)
    (path : String) (query : List (String × String)) (body : Option Json)
    (respond : Responder) :
    lookupHeader (buildRequest c m path query body).headers "X-Api-Key" = some c.api_key
    ∧ (∀ req ∈ (rawRequest c m path query body respond).2,
        lookupHeader req.headers "X-Api-Key" = some c.api_key)
    ∧ (∀ (code : String), ∀ req ∈ (c.project_exists code respond).2,
        lookupHeader req.headers "X-Api-Key" = some c.api_key) := by
  have hbuild : ∀ (m' : Method) (path' : String) (query' : List (String × String))
      (body' : Option Json),
      lookupHeader (buildRequest c m' path' query' body').headers "X-Api-Key"
        = some c.api_key := by
    intro m' path' query' body'
    rfl
  refine ⟨hbuild m path query body, ?_, ?_⟩
  · intro req hreq
    rcases rawRequest_calls c m path query body respond with hc | hc
    · rw [hc] at hreq
      exact absurd hreq (List.not_mem_nil req)
    · rw [hc] at hreq
      rw [List.mem_singleton.mp hreq]
      exact hbuild m path query body
  · intro code req hreq
    rcases project_exists_calls c code respond with hc | hc
    · rw [hc] at hreq
      exact absurd hreq (List.not_mem_nil req)
    · rw [hc] at hreq
      rw [List.mem_singleton.mp hreq]
      exact hbuild .HEAD "/importapi/Project" [("projectCode", code)] none

/-- C2 witness: the concrete GET request of `get_users` on an entered
client carries `X-Api-Key: test-api-key`. -/
theorem api_key_header_on_every_request_witness :
    lookupHeader
      (buildRequest ((mkClient "test-api-key" "https://import.decidalo.dev").aenter.1)
        .GET "/importapi/User" [] none).headers "X-Api-Key" = some "test-api-key"
    ∧ lookupHeader
        (buildRequest ((mkClient "test-api-key" "https://import.decidalo.dev").aenter.1)
          .GET "/importapi/User" [] none).headers "X-Api-Key"
        = some ((mkClient "test-api-key" "https://import.decidalo.dev").aenter.1).api_key := by
  have h := api_key_header_on_every_request
    ((mkClient "test-api-key" "https://import.decidalo.dev").aenter.1)
    .GET "/importapi/User" [] none (fun _ => ⟨200, "", Json.arr []⟩)
  refine ⟨?_, h.1⟩
  have hmem : buildRequest ((mkClient "test-api-key" "https://import.decidalo.dev").aenter.1)
      .GET "/importapi/User" [] none
      ∈ (rawRequest ((mkClient "test-api-key" "https://import.decidalo.dev").aenter.1)
          .GET "/importapi/User" [] none (fun _ => ⟨200, "", Json.arr []⟩)).2 := by
    have hcalls : (rawRequest ((mkClient "test-api-key" "https://import.decidalo.dev").aenter.1)
        .GET "/importapi/User" [] none (fun _ => ⟨200, "", Json.arr []⟩)).2
        = [buildRequest ((mkClient "test-api-key" "https://import.decidalo.dev").aenter.1)
            .GET "/importapi/User" [] none] := rfl
    rw [hcalls]
    exact List.mem_singleton.mpr rfl
  exact h.2.1 _ hmem

/-- C1: for every operation and every non-2xx response status the client
raises exactly one typed error determined by the status: 401 and 403 raise
the authentication error exposing that exact status code, every other
non-2xx status raises the generic API error exposing that exact status code
with a message containing the raw response body text, and no success value
is returned in either case. -/
theorem non2xx_raises_typed_error (c : DecidaloClient) (m : Method)
    (path : String) (query : List (String × String)) (body : Option Json)
    (respond : Responder) (hsess : c.session = some ())
    (hs : ¬ is2xx (responseOf c m path query body respond).status) :
    (((responseOf c m path query body respond).status = 401
        ∨ (responseOf c m path query body respond).status = 403) →
      (rawRequest c m path query body respond).1
        = .error (.authenticationError (responseOf c m path query body respond).status
            (authMessage (responseOf c m path query body respond).status
              (responseOf c m path query body respond).text)))
    ∧ (((responseOf c m path query body respond).status ≠ 401
        ∧ (responseOf c m path query body respond).status ≠ 403) →
      (rawRequest c m path query body respond).1
        = .error (.apiError (responseOf c m path query body respond).status
            (apiMessage (responseOf c m path query body respond).status
              (responseOf c m path query body respond).text))
      ∧ ∃ pre, apiMessage (responseOf c m path query body respond).status
            (responseOf c m path query body respond).text
          = pre ++ (responseOf c m path query body respond).text)
    ∧ (∀ r, (rawRequest c m path query body respond).1 ≠ .ok r) := by
  have hred : rawRequest c m path query body respond =
      (if is2xx (responseOf c m path query body respond).status then
        (.ok (responseOf c m path query body respond), [buildRequest c m path query body])
      else if (responseOf c m path query body respond).status = 401
          ∨ (responseOf c m path query body respond).status = 403 then
        (.error (.authenticationError (responseOf c m path query body respond).status
            (authMessage (responseOf c m path query body respond).status
              (responseOf c m path query body respond).text)),
          [buildRequest c m path query body])
      else
        (.error (.apiError (responseOf c m path query body respond).status
            (apiMessage (responseOf c m path query body respond).status
              (responseOf c m path query body respond).text)),
          [buildRequest c m path query body])) := by
    unfold rawRequest responseOf
    rw [hsess]
  rw [hred, if_neg hs]
  by_cases hauth : (responseOf c m path query body respond).status = 401
      ∨ (responseOf c m path query body respond).status = 403
  · rw [if_pos hauth]
    refine ⟨fun _ => rfl, fun hne => ?_, fun r => ?_⟩
    · rcases hauth with h4 | h4
      · exact absurd h4 hne.1
      · exact absurd h4 hne.2
    · intro hok
      exact Except.noConfusion hok
  · rw [if_neg hauth]
    refine ⟨fun hx => absurd hx hauth, fun _ => ⟨rfl, ?_⟩, fun r hok => Except.noConfusion hok⟩
    exact ⟨"API request failed with status "
      ++ toString (responseOf c m path query body respond).status ++ ": ", rfl⟩

/-- C1 witness: a 500 response with body "Internal Server Error" to the
users listing raises the generic API error carrying status 500 and a
message containing the body. -/
theorem non2xx_raises_typed_error_witness :
    ¬ is2xx 500
    ∧ (rawRequest ((mkClient "test-api-key" "https://import.decidalo.dev").aenter.1)
          .GET "/importapi/User" [] none
          (fun _ => ⟨500, "Internal Server Error", Json.null⟩)).1
        = .error (.apiError 500 (apiMessage 500 "Internal Server Error"))
    ∧ (∃ pre, apiMessage 500 "Internal Server Error" = pre ++ "Internal Server Error") := by
  have h := non2xx_raises_typed_error
    ((mkClient "test-api-key" "https://import.decidalo.dev").aenter.1)
    .GET "/importapi/User" [] none
    (fun _ => ⟨500, "Internal Server Error", Json.null⟩) rfl
    (by decide)
  have h2 := h.2.1 ⟨by decide, by decide⟩
  exact ⟨by decide, h2.1, h2.2⟩

/-- C4: the existence check returns `true` exactly when the remote status is
200 and `false` exactly when it is 404, and its outcome is independent of
the response payload: no JSON body is decoded in any case. -/
theorem project_exists_status_only (c : DecidaloClient) (code : String)
    (respond : Responder) (hsess : c.session = some ()) :
    ((c.project_exists code respond).1 = .ok true
      ↔ (responseOf c .HEAD "/importapi/Project" [("projectCode", code)] none respond).status = 200)
    ∧ ((c.project_exists code respond).1 = .ok false
      ↔ (responseOf c .HEAD "/importapi/Project" [("projectCode", code)] none respond).status = 404)
    ∧ (∀ respond' : Responder,
        (∀ req, (respond' req).status = (respond req).status
          ∧ (respond' req).text = (respond req).text) →
        c.project_exists code respond' = c.project_exists code respond) := by
  have hred : ∀ r : Responder, c.project_exists code r =
      (if (responseOf c .HEAD "/importapi/Project" [("projectCode", code)] none r).status = 200 then
        (.ok true, [buildRequest c .HEAD "/importapi/Project" [("projectCode", code)] none])
      else if (responseOf c .HEAD "/importapi/Project" [("projectCode", code)] none r).status = 404 then
        (.ok false, [buildRequest c .HEAD "/importapi/Project" [("projectCode", code)] none])
      else if (responseOf c .HEAD "/importapi/Project" [("projectCode", code)] none r).status = 401
          ∨ (responseOf c .HEAD "/importapi/Project" [("projectCode", code)] none r).status = 403 then
        (.error (.authenticationError
            (responseOf c .HEAD "/importapi/Project" [("projectCode", code)] none r).status
            (authMessage
              (responseOf c .HEAD "/importapi/Project" [("projectCode", code)] none r).status
              (responseOf c .HEAD "/importapi/Project" [("projectCode", code)] none r).text)),
          [buildRequest c .HEAD "/importapi/Project" [("projectCode", code)] none])
      else
        (.error (.apiError
            (responseOf c .HEAD "/importapi/Project" [("projectCode", code)] none r).status
            (apiMessage
              (responseOf c .HEAD "/importapi/Project" [("projectCode", code)] none r).status
              (responseOf c .HEAD "/importapi/Project" [("projectCode", code)] none r).text)),
          [buildRequest c .HEAD "/importapi/Project" [("projectCode", code)] none])) := by
    intro r
    unfold DecidaloClient.project_exists responseOf
    rw [hsess]
  constructor
  · rw [hred]
    by_cases h200 : (responseOf c .HEAD "/importapi/Project" [("projectCode", code)] none respond).status = 200
    · rw [if_pos h200]
      exact ⟨fun _ => h200, fun _ => rfl⟩
    · rw [if_neg h200]
      constructor
      · intro hok
        exfalso
        split at hok
        · exact Bool.noConfusion (Except.ok.inj hok)
        · split at hok
          · exact Except.noConfusion hok
          · exact Except.noConfusion hok
      · intro hx
        exact absurd hx h200
  constructor
  · rw [hred]
    by_cases h200 : (responseOf c .HEAD "/importapi/Project" [("projectCode", code)] none respond).status = 200
    · rw [if_pos h200]
      constructor
      · intro hok
        exact absurd (Except.ok.inj hok) Bool.noConfusion
      · intro h404
        rw [h200] at h404
        exact absurd h404 (by decide)
    · rw [if_neg h200]
      by_cases h404 : (responseOf c .HEAD "/importapi/Project" [("projectCode", code)] none respond).status = 404
      · rw [if_pos h404]
        exact ⟨fun _ => h404, fun _ => rfl⟩
      · rw [if_neg h404]
        constructor
        · intro hok
          exfalso
          split at hok
          · exact Except.noConfusion hok
          · exact Except.noConfusion hok
        · intro hx
          exact absurd hx h404
  · intro respond' hagree
    rw [hred respond', hred respond]
    have hst := (hagree (buildRequest c .HEAD "/importapi/Project" [("projectCode", code)] none)).1
    have htx := (hagree (buildRequest c .HEAD "/importapi/Project" [("projectCode", code)] none)).2
    unfold responseOf
    rw [hst, htx]

/-- C4 witness: on an entered client, a HEAD responder answering 200 makes
`project_exists` return `true`. -/
theorem project_exists_status_only_witness :
    (((mkClient "test-api-key" "https://import.decidalo.dev").aenter.1).project_exists
        "PROJ001" (fun _ => ⟨200, "", Json.null⟩)).1 = .ok true := by
  have h := project_exists_status_only
    ((mkClient "test-api-key" "https://import.decidalo.dev").aenter.1)
    "PROJ001" (fun _ => ⟨200, "", Json.null⟩) rfl
  exact h.1.mpr rfl

/-- C5: for absence retrieval, a 2xx response body `{"absences": null}` and
a body `{"absences": []}` both decode without error, and in both cases the
caller — who normalizes the envelope with `absences or []` as the
playground driver does — sees an empty list of absences. -/
theorem get_absences_null_or_empty (c : DecidaloClient) (respond : Responder)
    (hsess : c.session = some ())
    (hst : is2xx (responseOf c .GET "/importapi/Absence" [] none respond).status) :
    ((responseOf c .GET "/importapi/Absence" [] none respond).payload
        = Json.obj [("absences", Json.null)] →
      (c.get_absences respond).1 = .ok { absences := none }
      ∧ callerAbsences { absences := none } = [])
    ∧ ((responseOf c .GET "/importapi/Absence" [] none respond).payload
        = Json.obj [("absences", Json.arr [])] →
      (c.get_absences respond).1 = .ok { absences := some [] }
      ∧ callerAbsences { absences := some [] } = []) := by
  have hraw : rawRequest c .GET "/importapi/Absence" [] none respond
      = (.ok (responseOf c .GET "/importapi/Absence" [] none respond),
          [buildRequest c .GET "/importapi/Absence" [] none]) := by
    unfold rawRequest
    rw [hsess]
    dsimp only
    exact if_pos hst
  have hred : c.get_absences respond
      = decodeWith decodeAbsencesResult
          (rawRequest c .GET "/importapi/Absence" [] none respond) := rfl
  constructor
  · intro hp
    refine ⟨?_, rfl⟩
    rw [hred, hraw]
    simp only [decodeWith]
    rw [hp]
    rfl
  · intro hp
    refine ⟨?_, rfl⟩
    rw [hred, hraw]
    simp only [decodeWith]
    rw [hp]
    rfl

/-- C5 witness: on an entered client, a 200 response with body
`{"absences": null}` yields the empty envelope, whose caller view is the
empty list. -/
theorem get_absences_null_or_empty_witness :
    (((mkClient "test-api-key" "https://import.decidalo.dev").aenter.1).get_absences
        (fun _ => ⟨200, "", Json.obj [("absences", Json.null)]⟩)).1
      = .ok { absences := none }
    ∧ callerAbsences { absences := none } = [] := by
  have h := get_absences_null_or_empty
    ((mkClient "test-api-key" "https://import.decidalo.dev").aenter.1)
    (fun _ => ⟨200, "", Json.obj [("absences", Json.null)]⟩) rfl (by decide)
  exact h.1 rfl

/-- C7: posting a user-import batch — in particular one with zero users,
which serializes to `{"users": []}` — whose response body is
`{"batchID": "<uuid>"}` returns a result whose batch id equals that UUID,
and polling the user import-status endpoint on a response
`{"batchID": "<uuid>", "status": {"status": "Completed"}}` decodes to a
result whose status is the `Completed` member of the closed status
enumeration. -/
theorem user_import_roundtrip (c : DecidaloClient) (b : String)
    (respond₁ respond₂ : Responder) (hsess : c.session = some ())
    (h1s : (responseOf c .POST "/importapi/User" []
        (some (encodeUserBatch ⟨[]⟩)) respond₁).status = 202)
    (h1p : (responseOf c .POST "/importapi/User" []
        (some (encodeUserBatch ⟨[]⟩)) respond₁).payload
      = Json.obj [("batchID", Json.str b)])
    (h2s : (responseOf c .GET "/importapi/User/ImportStatus" [("batchId", b)]
        none respond₂).status = 200)
    (h2p : (responseOf c .GET "/importapi/User/ImportStatus" [("batchId", b)]
        none respond₂).payload
      = Json.obj [("batchID", Json.str b),
          ("status", Json.obj [("status", Json.str "Completed"),
            ("errorMessage", Json.null)])]) :
    encodeUserBatch ⟨[]⟩ = Json.obj [("users", Json.arr [])]
    ∧ (c.import_users_async ⟨[]⟩ respond₁).1 = .ok { batchID := b }
    ∧ (c.get_user_import_status b respond₂).1
        = .ok { batchID := b
                status := { status := ImportStatus.Completed, errorMessage := none } } := by
  have hst1 : is2xx (responseOf c .POST "/importapi/User" []
      (some (encodeUserBatch ⟨[]⟩)) respond₁).status := by
    rw [h1s]
    decide
  have hst2 : is2xx (responseOf c .GET "/importapi/User/ImportStatus"
      [("batchId", b)] none respond₂).status := by
    rw [h2s]
    decide
  have hraw1 : rawRequest c .POST "/importapi/User" []
      (some (encodeUserBatch ⟨[]⟩)) respond₁
      = (.ok (responseOf c .POST "/importapi/User" []
          (some (encodeUserBatch ⟨[]⟩)) respond₁),
        [buildRequest c .POST "/importapi/User" [] (some (encodeUserBatch ⟨[]⟩))]) := by
    unfold rawRequest
    rw [hsess]
    dsimp only
    exact if_pos hst1
  have hraw2 : rawRequest c .GET "/importapi/User/ImportStatus" [("batchId", b)]
      none respond₂
      = (.ok (responseOf c .GET "/importapi/User/ImportStatus" [("batchId", b)]
          none respond₂),
        [buildRequest c .GET "/importapi/User/ImportStatus" [("batchId", b)] none]) := by
    unfold rawRequest
    rw [hsess]
    dsimp only
    exact if_pos hst2
  refine ⟨rfl, ?_, ?_⟩
  · have hred : c.import_users_async ⟨[]⟩ respond₁
        = decodeWith decodeBatchResponse
            (rawRequest c .POST "/importapi/User" []
              (some (encodeUserBatch ⟨[]⟩)) respond₁) := rfl
    rw [hred, hraw1]
    simp only [decodeWith]
    rw [h1p]
    rfl
  · have hred : c.get_user_import_status b respond₂
        = decodeWith decodeUserImportStatus
            (rawRequest c .GET "/importapi/User/ImportStatus" [("batchId", b)]
              none respond₂) := rfl
    rw [hred, hraw2]
    simp only [decodeWith]
    rw [h2p]
    rfl

/-- C7 witness: the round-trip at the UUID of the unit tests, with a 202
batch-id response and a 200 Completed status response. -/
theorem user_import_roundtrip_witness :
    (((mkClient "test-api-key" "https://import.decidalo.dev").aenter.1).import_users_async
        ⟨[]⟩ (fun _ => ⟨202, "",
          Json.obj [("batchID", Json.str "550e8400-e29b-41d4-a716-446655440000")]⟩)).1
      = .ok { batchID := "550e8400-e29b-41d4-a716-446655440000" }
    ∧ (((mkClient "test-api-key" "https://import.decidalo.dev").aenter.1).get_user_import_status
        "550e8400-e29b-41d4-a716-446655440000"
        (fun _ => ⟨200, "",
          Json.obj [("batchID", Json.str "550e8400-e29b-41d4-a716-446655440000")
            , ("status", Json.obj [("status", Json.str "Completed"),
                ("errorMessage", Json.null)])]⟩)).1
      = .ok { batchID := "550e8400-e29b-41d4-a716-446655440000"
              status := { status := ImportStatus.Completed, errorMessage := none } } := by
  have h := user_import_roundtrip
    ((mkClient "test-api-key" "https://import.decidalo.dev").aenter.1)
    "550e8400-e29b-41d4-a716-446655440000"
    (fun _ => ⟨202, "",
      Json.obj [("batchID", Json.str "550e8400-e29b-41d4-a716-446655440000")]⟩)
    (fun _ => ⟨200, "",
      Json.obj [("batchID", Json.str "550e8400-e29b-41d4-a716-446655440000")
        , ("status", Json.obj [("status", Json.str "Completed"),
            ("errorMessage", Json.null)])]⟩)
    rfl rfl rfl rfl rfl
  exact ⟨h.2.1, h.2.2⟩

/-- C8: decoding a 2xx JSON body into the declared target shape preserves
every declared field the server sent (shown for the User shape on arbitrary
field values), is unaffected by any additional fields the shape does not
declare (appending fields with undeclared keys leaves the decode result
unchanged), and resolves fields absent from a nullable slot to their
default `none` (shown for the Booking shape of the by-project payload). -/
theorem decode_preserves_declared_fields (fields extra : List (String × Json))
    (hextra : ∀ p ∈ extra, p.1 ∉ userKeys) :
    decodeUser (Json.obj (fields ++ extra)) = decodeUser (Json.obj fields)
    ∧ (∀ (uid etid : Int) (em dn eid etn cd led : String) (irm hl : Bool),
        decodeUser (Json.obj [("userID", Json.num uid), ("email", Json.str em),
            ("displayName", Json.str dn), ("employeeID", Json.str eid),
            ("employeeTypeID", Json.num etid), ("employeeTypeName", Json.str etn),
            ("includeInResourceManagement", Json.bool irm),
            ("hasLogin", Json.bool hl), ("creationDate", Json.str cd),
            ("lastEditDate", Json.str led)])
          = .ok { userID := uid
                  email := em
                  displayName := dn
                  employeeID := some eid
                  employeeTypeID := etid
                  employeeTypeName := etn
                  includeInResourceManagement := irm
                  hasLogin := hl
                  creationDate := cd
                  lastEditDate := led })
    ∧ (∀ (bid pid uid : Int) (pcode subj : String),
        decodeBooking (Json.obj [("bookingID", Json.num bid),
            ("projectID", Json.num pid), ("projectCode", Json.str pcode),
            ("userID", Json.num uid), ("subject", Json.str subj)])
          = .ok { bookingID := bid
                  bookingCode := none
                  projectID := some pid
                  projectCode := some pcode
                  userID := uid
                  subject := subj
                  startDate := none
                  endDate := none
                  capacity := none
                  bookingType := none }) := by
  have hagree : ∀ k, k ∈ userKeys →
      lookupField (fields ++ extra) k = lookupField fields k := by
    intro k hk
    apply lookupField_append_of_none
    apply lookupField_eq_none
    intro p hp hpk
    exact hextra p hp (hpk ▸ hk)
  refine ⟨?_, fun _ _ _ _ _ _ _ _ _ _ => rfl, fun _ _ _ _ _ => rfl⟩
  simp only [decodeUser, reqInt, reqStr, optStr, reqBool]
  rw [hagree "userID" (by simp [userKeys]),
      hagree "email" (by simp [userKeys]),
      hagree "displayName" (by simp [userKeys]),
      hagree "employeeID" (by simp [userKeys]),
      hagree "employeeTypeID" (by simp [userKeys]),
      hagree "employeeTypeName" (by simp [userKeys]),
      hagree "includeInResourceManagement" (by simp [userKeys]),
      hagree "hasLogin" (by simp [userKeys]),
      hagree "creationDate" (by simp [userKeys]),
      hagree "lastEditDate" (by simp [userKeys])]

/-- C8 witness: the first user payload of the unit tests decodes the same
with an undeclared extra field appended as without it. -/
theorem decode_preserves_declared_fields_witness :
    (∀ p ∈ ([("favoriteColor", Json.str "green")] : List (String × Json)),
      p.1 ∉ userKeys)
    ∧ decodeUser (Json.obj ([("userID", Json.num 1),
        ("email", Json.str "john.doe@example.com"),
        ("displayName", Json.str "John Doe"),
        ("employeeID", Json.str "EMP001"),
        ("employeeTypeID", Json.num 1),
        ("employeeTypeName", Json.str "Employee"),
        ("includeInResourceManagement", Json.bool true),
        ("hasLogin", Json.bool true),
        ("creationDate", Json.str "2024-01-01T00:00:00Z"),
        ("lastEditDate", Json.str "2024-01-15T00:00:00Z")]
        ++ [("favoriteColor", Json.str "green")]))
      = decodeUser (Json.obj [("userID", Json.num 1),
        ("email", Json.str "john.doe@example.com"),
        ("displayName", Json.str "John Doe"),
        ("employeeID", Json.str "EMP001"),
        ("employeeTypeID", Json.num 1),
        ("employeeTypeName", Json.str "Employee"),
        ("includeInResourceManagement", Json.bool true),
        ("hasLogin", Json.bool true),
        ("creationDate", Json.str "2024-01-01T00:00:00Z"),
        ("lastEditDate", Json.str "2024-01-15T00:00:00Z")]) := by
  have hextra : ∀ p ∈ ([("favoriteColor", Json.str "green")] : List (String × Json)),
      p.1 ∉ userKeys := by
    intro p hp
    rw [List.mem_singleton.mp hp]
    simp [userKeys]
  exact ⟨hextra,
    (decode_preserves_declared_fields
      [("userID", Json.num 1),
        ("email", Json.str "john.doe@example.com"),
        ("displayName", Json.str "John Doe"),
        ("employeeID", Json.str "EMP001"),
        ("employeeTypeID", Json.num 1),
        ("employeeTypeName", Json.str "Employee"),
        ("includeInResourceManagement", Json.bool true),
        ("hasLogin", Json.bool true),
        ("creationDate", Json.str "2024-01-01T00:00:00Z"),
        ("lastEditDate", Json.str "2024-01-15T00:00:00Z")]
      [("favoriteColor", Json.str "green")] hextra).1⟩

end Decidalo
